import Mathlib

/-!
Verification development for the Jet-buddy signal-fusion pipeline.

The Python sources under app/ are shallowly embedded: every numeric value is a
rational number (the idealization of IEEE doubles used throughout), Python
dictionaries become structures, raised exceptions become `Except` values, and
`None`-able inputs become `Option`.  Python's `round(x, n)` and the `:.1f`
format both round half to even; they are modelled by `roundHalfEven`/`pyRound`.
-/

namespace JetBuddy

/-- Round a rational to the nearest integer, ties to even — the rounding used
by Python's `round` builtin and float formatting. -/
def roundHalfEven (x : ℚ) : ℤ :=
  if x - ⌊x⌋ < 1/2 then ⌊x⌋
  else if 1/2 < x - ⌊x⌋ then ⌊x⌋ + 1
  else if ⌊x⌋ % 2 = 0 then ⌊x⌋ else ⌊x⌋ + 1

/-- Python `round(x, d)` on our rational model of floats. -/
def pyRound (d : ℕ) (x : ℚ) : ℚ :=
  (roundHalfEven (x * (10 ^ d)) : ℚ) / 10 ^ d

/-- Python `int(x)` for the nonnegative quantities this program feeds it
(truncation coincides with floor there). -/
def pyInt (x : ℚ) : ℤ := ⌊x⌋

/-- Python format `:.1f` for the nonnegative quantities this program formats:
one decimal digit, ties to even. -/
def formatFix1 (x : ℚ) : String :=
  let t : ℤ := roundHalfEven (x * 10)
  toString (t / 10) ++ "." ++ toString (t % 10)

/-- ASCII lowercasing of one character, as Python `str.lower` acts on the
label strings this program passes around. -/
def lowerChar (c : Char) : Char :=
  if 65 ≤ c.toNat ∧ c.toNat ≤ 90 then Char.ofNat (c.toNat + 32) else c

/-- Python `str.lower` on the ASCII label strings of this program. -/
def pyLower (s : String) : String := String.mk (s.data.map lowerChar)

/-- One OHLCV candle (timestamp and volume are never read by the analysed
code paths and are omitted). Field `open_` models the `open` column. -/
structure Candle where
  open_ : ℚ
  high : ℚ
  low : ℚ
  close : ℚ
deriving DecidableEq, Repr

/-- Directional label, the value set of `trend_direction`, `sentiment` and
`structure_bias` produced by the analysis modules. -/
inductive Direction where
  | bullish
  | bearish
  | neutral
deriving DecidableEq, Repr

/-- The dict `mapping = {'bullish': 1, 'bearish': -1, 'neutral': 0}` of
app/modules/aggregator.py. -/
def dirScore : Direction → ℤ
  | .bullish => 1
  | .bearish => -1
  | .neutral => 0

/-- Confidence normalization `if confidence > 1: confidence = confidence / 100`
shared verbatim by aggregator.py and tp_engine.py. -/
def normalizeConfidence (c : ℚ) : ℚ := if 1 < c then c / 100 else c

/-! ## app/modules/risk_engine.py -/

/-- Result of `get_position_size` (the human-readable `reason` string is
omitted: no claim concerns it). -/
structure RiskDecision where
  risk_profile : String
  suggested_lot_size : ℚ
deriving DecidableEq, Repr

/-- Embedding of `get_position_size` from app/modules/risk_engine.py:
the if/elif chain choosing `effective_tier`, then the `lot_sizes` dict
lookup with default 0.10. -/
def get_position_size (confidence : ℚ) (volatility : String)
    (risk_tier : String) : RiskDecision :=
  let effective_tier : String :=
    if confidence < 4/10 then "conservative"
    else if volatility = "high" then "conservative"
    else if 3/4 < confidence ∧ volatility ≠ "high" then "aggressive"
    else risk_tier
  let suggested_lot : ℚ :=
    if effective_tier = "conservative" then 1/100
    else if effective_tier = "medium" then 1/10
    else if effective_tier = "aggressive" then 1
    else 1/10
  ⟨effective_tier, suggested_lot⟩

/-- Modelled from the spec words of C7 (section 4.7): first matching rule in
order — confidence < 0.4 conservative; volatility high conservative;
confidence > 0.75 with volatility not high aggressive; otherwise the requested
tier — then the lot-size table with unknown tiers defaulting to medium's
value. -/
def specPositionSize (confidence : ℚ) (volatility : String)
    (risk_tier : String) : RiskDecision :=
  let tier : String :=
    if confidence < 4/10 then "conservative"
    else if volatility = "high" then "conservative"
    else if 3/4 < confidence ∧ ¬ volatility = "high" then "aggressive"
    else risk_tier
  let lot : ℚ :=
    if tier = "conservative" then 1/100
    else if tier = "medium" then 1/10
    else if tier = "aggressive" then 1
    else 1/10
  ⟨tier, lot⟩

/-! ## app/modules/aggregator.py -/

/-- Result of `aggregate_signals` (`component_scores` kept as the two bucket
fields). -/
structure AggResult where
  bias_confidence : ℚ
  final_bias : Direction
  score_bullish : ℚ
  score_bearish : ℚ
deriving DecidableEq, Repr

/-- The sequential accumulation of `scores['bullish']` in `aggregate_signals`
(weights: trend 0.5, sentiment 0.2, structure 0.3; structure confidence is
1.0 when its score is nonzero, else 0.0). -/
def aggScoreBullish (td : Direction) (tc : ℚ) (sd : Direction) (sc : ℚ)
    (bd : Direction) : ℚ :=
  let tconf := normalizeConfidence tc
  let b1 : ℚ := if 0 < dirScore td then 0 + tconf * (5/10) else 0
  let sconf := normalizeConfidence sc
  let b2 : ℚ := if 0 < dirScore sd then b1 + sconf * (2/10) else b1
  let stconf : ℚ := if dirScore bd ≠ 0 then 1 else 0
  if 0 < dirScore bd then b2 + stconf * (3/10) else b2

/-- The sequential accumulation of `scores['bearish']` in `aggregate_signals`. -/
def aggScoreBearish (td : Direction) (tc : ℚ) (sd : Direction) (sc : ℚ)
    (bd : Direction) : ℚ :=
  let tconf := normalizeConfidence tc
  let r1 : ℚ := if dirScore td < 0 then 0 + tconf * (5/10) else 0
  let sconf := normalizeConfidence sc
  let r2 : ℚ := if dirScore sd < 0 then r1 + sconf * (2/10) else r1
  let stconf : ℚ := if dirScore bd ≠ 0 then 1 else 0
  if dirScore bd < 0 then r2 + stconf * (3/10) else r2

/-- Embedding of `aggregate_signals` from app/modules/aggregator.py: weighted
accumulation into the two buckets, then the strictly-larger bucket wins with
`round(min(confidence, 1.0), 2)`, ties giving neutral with confidence
`1 - max(bullish, bearish)` (also capped and rounded by the return line). -/
def aggregate_signals (td : Direction) (tc : ℚ) (sd : Direction) (sc : ℚ)
    (bd : Direction) : AggResult :=
  let b : ℚ := aggScoreBullish td tc sd sc bd
  let r : ℚ := aggScoreBearish td tc sd sc bd
  if r < b then ⟨pyRound 2 (min b 1), .bullish, b, r⟩
  else if b < r then ⟨pyRound 2 (min r 1), .bearish, b, r⟩
  else ⟨pyRound 2 (min (1 - max b r) 1), .neutral, b, r⟩

/-- Modelled from the spec words of C3: the bullish bucket is the sum of the
weighted confidences of the components whose direction is bullish, with
structure confidence 1.0 exactly when structure_bias is not neutral. -/
def specBullishBucket (td : Direction) (tc : ℚ) (sd : Direction) (sc : ℚ)
    (bd : Direction) : ℚ :=
  (if td = .bullish then normalizeConfidence tc * (5/10) else 0)
  + (if sd = .bullish then normalizeConfidence sc * (2/10) else 0)
  + (if bd = .bullish then (if bd ≠ .neutral then (1 : ℚ) else 0) * (3/10) else 0)

/-- Modelled from the spec words of C3: the bearish bucket. -/
def specBearishBucket (td : Direction) (tc : ℚ) (sd : Direction) (sc : ℚ)
    (bd : Direction) : ℚ :=
  (if td = .bearish then normalizeConfidence tc * (5/10) else 0)
  + (if sd = .bearish then normalizeConfidence sc * (2/10) else 0)
  + (if bd = .bearish then (if bd ≠ .neutral then (1 : ℚ) else 0) * (3/10) else 0)

/-! ## app/modules/tp_engine.py -/

/-- Split a character list at every non-overlapping occurrence of the
two-character separator `--`, scanning left to right — the behaviour of
Python `s.split('--')`, the only split this program performs. -/
def splitDashes : List Char → List (List Char)
  | [] => [[]]
  | '-' :: '-' :: rest => [] :: splitDashes rest
  | c :: rest =>
    match splitDashes rest with
    | [] => [[c]]
    | g :: gs => (c :: g) :: gs

/-- Python `s.split('--')` on strings. -/
def pySplitDashes (s : String) : List String :=
  (splitDashes s.data).map String.mk

/-- Split a character list at every dot, as Python float parsing separates
the integer and fractional parts. -/
def splitDot : List Char → List (List Char)
  | [] => [[]]
  | '.' :: rest => [] :: splitDot rest
  | c :: rest =>
    match splitDot rest with
    | [] => [[c]]
    | g :: gs => (c :: g) :: gs

/-- Whitespace test for Python `str.strip` (the strings this program strips
only ever carry spaces, tabs and newlines). -/
def isSpaceChar (c : Char) : Bool :=
  c = ' ' ∨ c = '\t' ∨ c = '\n' ∨ c = '\r'

/-- Drop leading whitespace characters. -/
def dropLeadingSpaces : List Char → List Char
  | [] => []
  | c :: rest => if isSpaceChar c then dropLeadingSpaces rest else c :: rest

/-- Python `str.strip`: whitespace removed from both ends. -/
def pyStrip (s : String) : String :=
  String.mk ((dropLeadingSpaces (dropLeadingSpaces s.data).reverse).reverse)

/-- Value of one decimal digit. -/
def digitVal? (c : Char) : Option ℕ :=
  if 48 ≤ c.toNat ∧ c.toNat ≤ 57 then some (c.toNat - 48) else none

/-- Parse a nonempty all-digit character list as a natural number. -/
def parseNatChars (cs : List Char) : Option ℕ :=
  if cs.isEmpty then none
  else
    cs.foldl
      (fun acc c =>
        match acc, digitVal? c with
        | some n, some d => some (n * 10 + d)
        | _, _ => none)
      (some 0)

/-- Parse a decimal literal to a rational, the restriction of Python `float`
to the numeric strings this program produces (optional leading minus, digits,
at most one dot with digits on both sides; `float` also accepts exponents,
bare-dot forms and whitespace, never produced here). -/
def parseFloat? (s : String) : Option ℚ :=
  let core : List Char → Option ℚ := fun cs =>
    match splitDot cs with
    | [a] => (parseNatChars a).map (fun n => (n : ℚ))
    | [a, b] =>
      match parseNatChars a, parseNatChars b with
      | some n, some m => some ((n : ℚ) + (m : ℚ) / 10 ^ b.length)
      | _, _ => none
    | _ => none
  match s.data with
  | '-' :: rest => (core rest).map (fun q => -q)
  | cs => core cs

/-- The `order_block` input of `generate_tp_prediction`: `None`, a bare price,
or a dict carrying a `zone` string such as "183.20 -- 184.75" (the dicts built
by smc_engine.py always carry the `zone` key). -/
inductive OBInput where
  | noneVal : OBInput
  | price : ℚ → OBInput
  | zoneDict : String → OBInput

/-- Result of `generate_tp_prediction` (the `tp_zone` display string and the
constant `source` field are omitted: building `tp_zone` needs Python float
repr semantics and no claim concerns either field). -/
structure TPResult where
  bias : String
  tp_level : ℚ
  sl_level : ℚ
  levels : List ℚ
  confidence : ℚ
  error : Option String
deriving DecidableEq, Repr

/-- Bullish resolution of the order block in `generate_tp_prediction`:
a zone dict is parsed and its last `--`-separated part taken; a bare value is
used unless falsy (Python `if order_block`, so `None` and `0.0` both fall back
to the entry price). Parse failures raise `ValueError`. -/
def resolveObBullish (ob : OBInput) (entry : ℚ) : Except String ℚ :=
  match ob with
  | .noneVal => .ok entry
  | .price p => .ok (if p = 0 then entry else p)
  | .zoneDict z =>
    let parts := pySplitDashes z
    if 1 < parts.length then
      match parseFloat? (pyStrip (parts.getLastD "")) with
      | some v => .ok v
      | none => .error "ValueError: could not convert string to float"
    else .ok entry

/-- Bearish resolution of the order block: the first `--`-separated part. -/
def resolveObBearish (ob : OBInput) (entry : ℚ) : Except String ℚ :=
  match ob with
  | .noneVal => .ok entry
  | .price p => .ok (if p = 0 then entry else p)
  | .zoneDict z =>
    let parts := pySplitDashes z
    if 1 < parts.length then
      match parseFloat? (pyStrip (parts.headD "")) with
      | some v => .ok v
      | none => .error "ValueError: could not convert string to float"
    else .ok entry

/-- The line `price_multiplier = (momentum * confidence) if
(momentum * confidence) > 0.01 else 0.01` (confidence already normalized). -/
def priceMultiplier (momentum confidence : ℚ) : ℚ :=
  if 1/100 < momentum * confidence then momentum * confidence else 1/100

/-- The line `base_tp = max(order_block_price, liquidity_zone, entry_price)`
of the bullish branch. -/
def bullishBaseTp (obPrice lz entry : ℚ) : ℚ := max obPrice (max lz entry)

/-- The line `base_tp = min(order_block_price, liquidity_zone, entry_price)`
of the bearish branch. -/
def bearishBaseTp (obPrice lz entry : ℚ) : ℚ := min obPrice (min lz entry)

/-- The line `tp_distance = abs(base_tp - entry_price) * price_multiplier`. -/
def tpDistance (base entry pm : ℚ) : ℚ := |base - entry| * pm

/-- The try-block of `generate_tp_prediction`; exceptions (zone parse
failures, zero `risk_ratio`) are propagated as `Except.error`. Inputs are the
dict fields the code reads: `bias`, `confidence`, `momentum` from trend_data;
`order_block`, `liquidity_zone` from smc_data; `entry_price` (optional, key
absence defaulting to `key_level`) and `risk_ratio` from risk_profile. -/
def tpCore (bias0 : String) (confidence0 momentum : ℚ) (ob : OBInput)
    (liquidity_zone key_level : ℚ) (entry_price? : Option ℚ)
    (risk_ratio : ℚ) : Except String TPResult :=
  let bias := pyLower bias0
  let entry := entry_price?.getD key_level
  let confidence := normalizeConfidence confidence0
  let pm := priceMultiplier momentum confidence
  if bias = "bullish" then
    match resolveObBullish ob entry with
    | .error e => .error e
    | .ok obPrice =>
      let base := bullishBaseTp obPrice liquidity_zone entry
      let dist := tpDistance base entry pm
      let tp := base + dist
      if risk_ratio = 0 then .error "ZeroDivisionError: float division by zero"
      else
        let sl := entry - dist / risk_ratio
        let levels := [pyRound 4 (entry + (tp - entry) * (1/2)), pyRound 4 tp]
        .ok ⟨bias, pyRound 4 tp, pyRound 4 sl, levels, confidence, none⟩
  else if bias = "bearish" then
    match resolveObBearish ob entry with
    | .error e => .error e
    | .ok obPrice =>
      let base := bearishBaseTp obPrice liquidity_zone entry
      let dist := tpDistance entry base pm
      let tp := base - dist
      if risk_ratio = 0 then .error "ZeroDivisionError: float division by zero"
      else
        let sl := entry + dist / risk_ratio
        let levels := [pyRound 4 (entry - (entry - tp) * (1/2)), pyRound 4 tp]
        .ok ⟨bias, pyRound 4 tp, pyRound 4 sl, levels, confidence, none⟩
  else
    -- tp_level = sl_level = entry_price; the later `if bias != 'neutral'`
    -- block then still runs its bearish arm for unknown labels.
    let tp := entry
    let sl := entry
    let levels :=
      if bias ≠ "neutral" then [pyRound 4 (entry - (entry - tp) * (1/2)), pyRound 4 tp]
      else [entry]
    .ok ⟨bias, pyRound 4 tp, pyRound 4 sl, levels, confidence, none⟩

/-- Embedding of `generate_tp_prediction` from app/modules/tp_engine.py: the
try-body, with the except-branch returning the entry-price fallback record
(`entry_price = risk_profile.get('entry_price', 1.0)`). -/
def generate_tp_prediction (bias0 : String) (confidence0 momentum : ℚ)
    (ob : OBInput) (liquidity_zone key_level : ℚ) (entry_price? : Option ℚ)
    (risk_ratio : ℚ) : TPResult :=
  match tpCore bias0 confidence0 momentum ob liquidity_zone key_level
      entry_price? risk_ratio with
  | .ok r => r
  | .error e =>
    let entry := entry_price?.getD 1
    ⟨"neutral", entry, entry, [entry], 0, some e⟩

/-! ## app/modules/time_engine.py

The module header imports only numpy (`import numpy as np`); the names `pd`
and `Optional` used in the signature and body of `estimate_time_and_volatility`
are unbound. Evaluating the `pd.DataFrame` annotation at import time raises
`NameError`, and — were the function defined — the ATR block
`tr = pd.DataFrame()` raises `NameError` inside the try, landing in the
except-branch fallback. Both are modelled explicitly below. -/

/-- The names bound at module level in app/modules/time_engine.py: a single
`import numpy as np`. -/
def timeEngineImportedNames : List String := ["np"]

/-- Import-time evaluation of the `pd.DataFrame` annotation of
`estimate_time_and_volatility`: looking up `pd` among the module's bound
names, a NameError when absent. -/
def timeEngineModuleImport : Except String Unit :=
  if timeEngineImportedNames.contains "pd" then .ok ()
  else .error "NameError: name pd is not defined"

/-- Result dict of `estimate_time_and_volatility`; `error` is the optional
`error` key (present only in the except-branch fallback). -/
structure TimeReport where
  estimated_entry_time : String
  tp_eta : String
  best_entry_zone : String
  volatility : String
  error : Option String
deriving DecidableEq, Repr

/-- The `entry_zone or 'N/A'` default. -/
def zoneOrNA (z : Option String) : String :=
  match z with
  | none => "N/A"
  | some s => if s = "" then "N/A" else s

/-- The `(ohlcv_df['high'] - ohlcv_df['low']).mean()` candle-velocity line. -/
def avgCandleSize (df : List Candle) : ℚ :=
  (df.map (fun c => c.high - c.low)).sum / df.length

/-- The `ohlcv_df['close'].iloc[-1]` access (callers guarantee nonempty). -/
def lastClose (df : List Candle) : ℚ := (df.getLast?).elim 0 (·.close)

/-- The zone parse `[float(p.strip()) for p in entry_zone.split('--')]`. -/
def parseZonePrices (z : String) : Except String (List ℚ) :=
  let parts := (pySplitDashes z).map (fun p => parseFloat? (pyStrip p))
  if parts.all (·.isSome) then .ok (parts.map (·.getD 0))
  else .error "ValueError: could not convert string to float"

/-- The `np.mean` of a list of prices. -/
def npMean (ps : List ℚ) : ℚ := ps.sum / ps.length

/-- Lines 34-48 of estimate_time_and_volatility: the estimated-entry-time
string — distance from the current close to the zone midpoint, divided by the
average candle size, times the nominal 15-minute interval, formatted
"in ~N minutes" under an hour and "in ~H.h hours" otherwise. -/
def entryTimeString (df : List Candle) (entry_zone : Option String)
    (avg : ℚ) : Except String String :=
  match entry_zone with
  | none => .ok "N/A"
  | some z =>
    if z = "" ∨ z = "N/A" then .ok "N/A"
    else
      match parseZonePrices z with
      | .error e => .error e
      | .ok prices =>
        let entryP := npMean prices
        let dist := |lastClose df - entryP|
        let minutes := dist / avg * 15
        if minutes < 60 then
          .ok ("in ~" ++ toString (pyInt minutes) ++ " minutes")
        else
          .ok ("in ~" ++ formatFix1 (minutes / 60) ++ " hours")

/-- Lines 51-56: the TP ETA string, using double the distance from the zone's
first bound (`float(entry_zone.split('--')[0])`, unstripped — float accepts
the surrounding whitespace). -/
def tpEtaString (df : List Candle) (entry_zone : Option String)
    (avg : ℚ) : Except String String :=
  match entry_zone with
  | none => .ok "N/A"
  | some z =>
    if z = "" ∨ z = "N/A" then .ok "N/A"
    else
      match parseFloat? (pyStrip ((pySplitDashes z).headD "")) with
      | none => .error "ValueError: could not convert string to float"
      | some p0 =>
        let dist := 2 * |p0 - lastClose df|
        let minutes := dist / avg * 15
        .ok ("within " ++ formatFix1 (minutes / 60) ++ " hours")

/-- The ATR block `tr = pd.DataFrame()`: `pd` is unbound in time_engine.py,
so evaluation raises NameError. -/
def atrStep : Except String Unit :=
  match timeEngineModuleImport with
  | .ok _ => .ok ()
  | .error e => .error e

/-- Embedding of `estimate_time_and_volatility` from app/modules/time_engine.py:
the length guard, the zero-average guard, then the try-block whose entry/TP
strings are computed before the ATR step raises, sending every surviving run
into the except-branch fallback record. -/
def estimate_time_and_volatility (df? : Option (List Candle))
    (entry_zone : Option String) : TimeReport :=
  match df? with
  | none => ⟨"N/A", "N/A", zoneOrNA entry_zone, "unknown", none⟩
  | some df =>
    if df.length < 10 then ⟨"N/A", "N/A", zoneOrNA entry_zone, "unknown", none⟩
    else
      let avg := avgCandleSize df
      if avg = 0 then ⟨"N/A", "N/A", zoneOrNA entry_zone, "low", none⟩
      else
        let run : Except String TimeReport :=
          match entryTimeString df entry_zone avg with
          | .error e => .error e
          | .ok entryStr =>
            match tpEtaString df entry_zone avg with
            | .error e => .error e
            | .ok tpStr =>
              match atrStep with
              | .error e => .error e
              | .ok _ =>
                -- unreachable: the ATR step always raises (pd is unbound)
                .ok ⟨entryStr, tpStr, zoneOrNA entry_zone, "unreachable", none⟩
        match run with
        | .ok r => r
        | .error e => ⟨"Error", "Error", zoneOrNA entry_zone, "unknown", some e⟩

/-! ## Length guards of trend_engine.py and smc_engine.py

The claims about these two modules concern only their insufficient-data
guards, which return before the analysis body starts; the body after the
guard is abstracted as an explicit function parameter, so every theorem below
holds for arbitrary bodies. -/

/-- Result fields of `analyze_trend` relevant to the guard (the success path
additionally carries slope/threshold diagnostics). -/
structure TrendResult where
  trend_direction : Direction
  confidence : ℚ
  error : Option String
deriving DecidableEq, Repr

/-- The dict returned by `analyze_trend` when `ohlcv_df is None or
len(ohlcv_df) < 20`. -/
def trendInsufficient : TrendResult :=
  ⟨.neutral, 0, some "Not enough data for trend analysis"⟩

/-- Embedding of `analyze_trend` from app/modules/trend_engine.py restricted
to its guard; `body` stands for the wavelet/Kalman analysis after the guard. -/
def analyze_trend (body : List Candle → TrendResult)
    (df? : Option (List Candle)) : TrendResult :=
  match df? with
  | none => trendInsufficient
  | some df => if df.length < 20 then trendInsufficient else body df

/-- Result fields of `analyze_smc_structure` relevant to the guard. -/
structure StructResult where
  structure_bias : Direction
  bos_detected : String
  order_block : Option (String × ℚ × ℚ)
  key_level : Option ℚ
  liquidity_zone : Option ℚ
  error : Option String
deriving DecidableEq, Repr

/-- The dict returned by `analyze_smc_structure` when `ohlcv_df is None or
len(ohlcv_df) < 25`. -/
def smcInsufficient : StructResult :=
  ⟨.neutral, "none", none, none, none, some "Not enough data"⟩

/-- Embedding of `analyze_smc_structure` from app/modules/smc_engine.py
restricted to its guard; `body` stands for the BOS/order-block analysis. -/
def analyze_smc_structure (body : List Candle → StructResult)
    (df? : Option (List Candle)) : StructResult :=
  match df? with
  | none => smcInsufficient
  | some df => if df.length < 25 then smcInsufficient else body df

/-! ## find_swings of app/modules/smc_engine.py -/

/-- Maximum of a list of prices (numpy takes nonempty windows; the empty
default is never consulted). -/
def listMax : List ℚ → ℚ
  | [] => 0
  | [x] => x
  | x :: y :: t => max x (listMax (y :: t))

/-- Minimum of a list of prices. -/
def listMin : List ℚ → ℚ
  | [] => 0
  | [x] => x
  | x :: y :: t => min x (listMin (y :: t))

/-- np.argmax on a window: the index of the first occurrence of the maximum. -/
def argmaxFirst (l : List ℚ) : ℕ := l.findIdx (fun x => x == listMax l)

/-- np.argmin on a window: the index of the first occurrence of the minimum. -/
def argminFirst (l : List ℚ) : ℕ := l.findIdx (fun x => x == listMin l)

/-- The window shrink at the top of `find_swings`:
`if len(data) < 2*n+1: n = max(1, len(data) // 3)`. -/
def effectiveHalfWidth (len n : ℕ) : ℕ :=
  if len < 2 * n + 1 then max 1 (len / 3) else n

/-- The high column of a series. -/
def highsOf (s : List Candle) : List ℚ := s.map (·.high)

/-- The low column of a series. -/
def lowsOf (s : List Candle) : List ℚ := s.map (·.low)

/-- The centered rolling window of half-width m at index i (only consulted
when the window is fully inside the series, matching pandas center=True with
incomplete windows filled to False). -/
def windowAt (xs : List ℚ) (i m : ℕ) : List ℚ :=
  (List.range (2 * m + 1)).map (fun d => xs.getD (i - m + d) 0)

/-- The `swing_high` column of `find_swings`: index i is a swing high when
its centered window of size 2m+1 exists and `x.argmax() == m` there. -/
def swing_high (s : List Candle) (n i : ℕ) : Bool :=
  let m := effectiveHalfWidth s.length n
  if m ≤ i ∧ i + m < s.length then
    argmaxFirst (windowAt (highsOf s) i m) == m
  else false

/-- The `swing_low` column of `find_swings`. -/
def swing_low (s : List Candle) (n i : ℕ) : Bool :=
  let m := effectiveHalfWidth s.length n
  if m ≤ i ∧ i + m < s.length then
    argminFirst (windowAt (lowsOf s) i m) == m
  else false

/-- The mirror of a series: time order reversed and the chart flipped about
the price axis, so the high channel takes the role of the low channel and
vice versa (high becomes the negated low, low the negated high). -/
def mirrorSeries (s : List Candle) : List Candle :=
  s.reverse.map (fun c => ⟨-c.open_, -c.low, -c.high, -c.close⟩)

/-- A window attains its maximum at a unique position. -/
def uniqueMaxAt (l : List ℚ) : Prop :=
  ∀ j < l.length, ∀ k < l.length,
    l.getD j 0 = listMax l → l.getD k 0 = listMax l → j = k

/-- A window attains its minimum at a unique position. -/
def uniqueMinAt (l : List ℚ) : Prop :=
  ∀ j < l.length, ∀ k < l.length,
    l.getD j 0 = listMin l → l.getD k 0 = listMin l → j = k

instance (l : List ℚ) : Decidable (uniqueMaxAt l) := by
  unfold uniqueMaxAt; infer_instance

instance (l : List ℚ) : Decidable (uniqueMinAt l) := by
  unfold uniqueMinAt; infer_instance

/-! ## run_full_analysis of app/main.py

Step 3 of `run_full_analysis` calls `trend_engine.get_bias`,
`smc_engine.get_structure`, `sentiment_engine.get_confidence`,
`time_engine.estimate_entry_and_tp_time`, `risk_engine.calculate_risk` and
`tp_engine.generate_tp_prediction` in that order. The embedding records, per
module, the functions its file actually defines, and models each call's
attribute lookup; a missing attribute raises AttributeError. -/

/-- Functions defined by app/modules/trend_engine.py. -/
def trendEngineDefs : List String := ["simple_kalman_filter", "analyze_trend"]

/-- Functions defined by app/modules/smc_engine.py. -/
def smcEngineDefs : List String := ["find_swings", "analyze_smc_structure"]

/-- Functions defined by app/modules/sentiment_engine.py. -/
def sentimentEngineDefs : List String := ["analyze_sentiment"]

/-- Functions defined by app/modules/time_engine.py (its import, moreover,
fails with NameError — see `timeEngineModuleImport`). -/
def timeEngineDefs : List String := ["estimate_time_and_volatility"]

/-- Functions defined by app/modules/risk_engine.py. -/
def riskEngineDefs : List String := ["get_position_size"]

/-- Functions defined by app/modules/tp_engine.py. -/
def tpEngineDefs : List String := ["generate_tp_prediction"]

/-- Python attribute lookup on a module: AttributeError when the module does
not define the name. -/
def lookupAttr (defs : List String) (modName attr : String) :
    Except String Unit :=
  if defs.contains attr then .ok ()
  else .error ("AttributeError: module " ++ modName ++ " has no attribute " ++ attr)

/-- The status/error envelope of the signal record assembled in step 4 of
`run_full_analysis` (the other keys copy component outputs and are dead code,
unreachable past step 3). -/
structure SignalEnvelope where
  status : String
  error_message : Option String
deriving DecidableEq, Repr

/-- Embedding of `run_full_analysis` from app/main.py, taking the outcome of
the step-2 data fetch as input: no (or an empty) series raises the 502
HTTPException; otherwise step 3 resolves and calls the module functions in
source order, and step 4 would assemble the status-ok envelope. -/
def run_full_analysis (fetched : Option (List Candle)) :
    Except String SignalEnvelope :=
  match fetched with
  | none => .error "HTTPException 502: no data"
  | some df =>
    if df.isEmpty then .error "HTTPException 502: no data"
    else do
      let _ ← lookupAttr trendEngineDefs "trend_engine" "get_bias"
      let _ ← lookupAttr smcEngineDefs "smc_engine" "get_structure"
      let _ ← lookupAttr sentimentEngineDefs "sentiment_engine" "get_confidence"
      let _ ← lookupAttr timeEngineDefs "time_engine" "estimate_entry_and_tp_time"
      let _ ← lookupAttr riskEngineDefs "risk_engine" "calculate_risk"
      let _ ← lookupAttr tpEngineDefs "tp_engine" "generate_tp_prediction"
      .ok ⟨"ok", none⟩

/-! ## Concrete series used by the claim theorems -/

/-- Ten candles of range 2 closing at 90 — the C8 scenario series. -/
def c8Series : List Candle := List.replicate 10 ⟨90, 91, 89, 90⟩

/-- Ten candles of range 2 — witness series for C10. -/
def c10Series : List Candle := List.replicate 10 ⟨1, 3, 1, 2⟩

/-- Five candles whose highs [0,2,2,0,0] tie at the maximum — the C9
counterexample series. -/
def tiedHighSeries : List Candle :=
  [⟨0, 0, 0, 0⟩, ⟨0, 2, 0, 0⟩, ⟨0, 2, 0, 0⟩, ⟨0, 0, 0, 0⟩, ⟨0, 0, 0, 0⟩]

/-- Five candles with a strict peak high and strict trough low at index 2 —
witness series for C9. -/
def strictPeakSeries : List Candle :=
  [⟨0, 0, 0, 0⟩, ⟨0, 1, -1, 0⟩, ⟨0, 2, -2, 0⟩, ⟨0, 1, -1, 0⟩, ⟨0, 0, 0, 0⟩]

/-! ## Helper lemmas -/

theorem roundHalfEven_ge_floor (x : ℚ) : ⌊x⌋ ≤ roundHalfEven x := by
  unfold roundHalfEven
  split_ifs <;> omega

theorem roundHalfEven_le_floor_add_one (x : ℚ) : roundHalfEven x ≤ ⌊x⌋ + 1 := by
  unfold roundHalfEven
  split_ifs <;> omega

theorem roundHalfEven_mono {x y : ℚ} (h : x ≤ y) :
    roundHalfEven x ≤ roundHalfEven y := by
  have hf : ⌊x⌋ ≤ ⌊y⌋ := Int.floor_le_floor h
  rcases eq_or_lt_of_le hf with he | hl
  · unfold roundHalfEven
    rw [← he]
    split_ifs <;> first | omega | (exfalso; linarith)
  · calc roundHalfEven x ≤ ⌊x⌋ + 1 := roundHalfEven_le_floor_add_one x
      _ ≤ ⌊y⌋ := by omega
      _ ≤ roundHalfEven y := roundHalfEven_ge_floor y

theorem pyRound_mono (d : ℕ) {x y : ℚ} (h : x ≤ y) :
    pyRound d x ≤ pyRound d y := by
  unfold pyRound
  have h1 : roundHalfEven (x * 10 ^ d) ≤ roundHalfEven (y * 10 ^ d) :=
    roundHalfEven_mono (mul_le_mul_of_nonneg_right h (by positivity))
  gcongr

/-! ## Claim theorems -/

/-- Claim C1 (code_bug evidence): for every non-empty fetched series,
`run_full_analysis` raises — its first step-3 call resolves the attribute
`get_bias` on trend_engine, which the module does not define — instead of
returning the status-ok signal the claim describes. -/
theorem claim_C1 (df : List Candle) (h : df ≠ []) :
    run_full_analysis (some df) =
      .error "AttributeError: module trend_engine has no attribute get_bias" := by
  match df, h with
  | _ :: _, _ => rfl

theorem claim_C1_witness :
    ([(⟨1, 1, 1, 1⟩ : Candle)] ≠ []) ∧
      run_full_analysis (some [⟨1, 1, 1, 1⟩]) =
        .error "AttributeError: module trend_engine has no attribute get_bias" :=
  ⟨by decide, claim_C1 _ (by decide)⟩

/-- Claim C2 (counterexample): a five-candle series is below the time
estimator's minimum of ten, yet its insufficient-data result carries no
error tag, contradicting the claim that every under-threshold component
result does. -/
theorem claim_C2_counterexample :
    (List.replicate 5 (⟨1, 2, 1, 1⟩ : Candle)).length < 10 ∧
      (estimate_time_and_volatility (some (List.replicate 5 ⟨1, 2, 1, 1⟩))
          none).error = none := by
  exact ⟨by decide, rfl⟩

/-- Claim C2 (amended): below its minimum length each component returns its
fixed insufficient-data record without raising — with an error tag for the
trend classifier (<20) and the structure analyzer (<25), while the time
estimator (<10) returns its N/A-and-unknown record, which carries no error
tag. The analysis bodies after the guards are universally quantified. -/
theorem claim_C2 (bodyT : List Candle → TrendResult)
    (bodyS : List Candle → StructResult) (dfT dfS dfTi : List Candle)
    (z : Option String) :
    (dfT.length < 20 → analyze_trend bodyT (some dfT) = trendInsufficient) ∧
    (dfS.length < 25 →
      analyze_smc_structure bodyS (some dfS) = smcInsufficient) ∧
    (dfTi.length < 10 →
      estimate_time_and_volatility (some dfTi) z =
        ⟨"N/A", "N/A", zoneOrNA z, "unknown", none⟩) := by
  refine ⟨fun h => ?_, fun h => ?_, fun h => ?_⟩
  · simp [analyze_trend, h]
  · simp [analyze_smc_structure, h]
  · simp [estimate_time_and_volatility, h]

theorem claim_C2_witness :
    analyze_trend (fun _ => trendInsufficient) (some []) = trendInsufficient ∧
    analyze_smc_structure (fun _ => smcInsufficient) (some []) =
      smcInsufficient ∧
    estimate_time_and_volatility (some []) none =
      ⟨"N/A", "N/A", "N/A", "unknown", none⟩ :=
  ⟨(claim_C2 (fun _ => trendInsufficient) (fun _ => smcInsufficient)
      [] [] [] none).1 (by decide),
   (claim_C2 (fun _ => trendInsufficient) (fun _ => smcInsufficient)
      [] [] [] none).2.1 (by decide),
   (claim_C2 (fun _ => trendInsufficient) (fun _ => smcInsufficient)
      [] [] [] none).2.2 (by decide)⟩

/-- Claim C7: `get_position_size` realizes the spec's first-match rule order
and lot table for every confidence, volatility string and requested tier,
and in particular confidence 0.3 yields the conservative profile with lot
size 0.01 regardless of volatility and requested tier. -/
theorem claim_C7 :
    (∀ (c : ℚ) (v t : String), get_position_size c v t = specPositionSize c v t)
    ∧ ∀ v t, get_position_size (3/10) v t = ⟨"conservative", 1/100⟩ := by
  constructor
  · intro c v t; rfl
  · intro v t
    unfold get_position_size
    norm_num

theorem aggScoreBullish_eq_spec (td : Direction) (tc : ℚ) (sd : Direction)
    (sc : ℚ) (bd : Direction) :
    aggScoreBullish td tc sd sc bd = specBullishBucket td tc sd sc bd := by
  cases td <;> cases sd <;> cases bd <;>
    simp [aggScoreBullish, specBullishBucket, dirScore]

theorem aggScoreBearish_eq_spec (td : Direction) (tc : ℚ) (sd : Direction)
    (sc : ℚ) (bd : Direction) :
    aggScoreBearish td tc sd sc bd = specBearishBucket td tc sd sc bd := by
  cases td <;> cases sd <;> cases bd <;>
    simp [aggScoreBearish, specBearishBucket, dirScore]

/-- Claim C3: `aggregate_signals` accumulates the weighted confidences into
the two buckets described by the spec (trend 0.5, sentiment 0.2, structure
0.3 with binary structure confidence); the strictly larger bucket names the
final bias and its value — capped at 1.0 and rounded to two decimals — is the
bias_confidence, while equal buckets give neutral with confidence one minus
the maximal bucket (the same cap-and-round applying to the returned value). -/
theorem claim_C3 (td : Direction) (tc : ℚ) (sd : Direction) (sc : ℚ)
    (bd : Direction) :
    (specBearishBucket td tc sd sc bd < specBullishBucket td tc sd sc bd →
      (aggregate_signals td tc sd sc bd).final_bias = .bullish ∧
      (aggregate_signals td tc sd sc bd).bias_confidence =
        pyRound 2 (min (specBullishBucket td tc sd sc bd) 1)) ∧
    (specBullishBucket td tc sd sc bd < specBearishBucket td tc sd sc bd →
      (aggregate_signals td tc sd sc bd).final_bias = .bearish ∧
      (aggregate_signals td tc sd sc bd).bias_confidence =
        pyRound 2 (min (specBearishBucket td tc sd sc bd) 1)) ∧
    (specBullishBucket td tc sd sc bd = specBearishBucket td tc sd sc bd →
      (aggregate_signals td tc sd sc bd).final_bias = .neutral ∧
      (aggregate_signals td tc sd sc bd).bias_confidence =
        pyRound 2 (min (1 - max (specBullishBucket td tc sd sc bd)
          (specBearishBucket td tc sd sc bd)) 1)) := by
  have hb := aggScoreBullish_eq_spec td tc sd sc bd
  have hr := aggScoreBearish_eq_spec td tc sd sc bd
  unfold aggregate_signals
  rw [hb, hr]
  set B := specBullishBucket td tc sd sc bd with hB
  set S := specBearishBucket td tc sd sc bd with hS
  refine ⟨fun h => ?_, fun h => ?_, fun h => ?_⟩
  · rw [if_pos h]; exact ⟨rfl, rfl⟩
  · rw [if_neg (by linarith), if_pos h]; exact ⟨rfl, rfl⟩
  · rw [if_neg (by rw [h]; exact lt_irrefl S), if_neg (by rw [h]; exact lt_irrefl S)]
    exact ⟨rfl, rfl⟩

theorem claim_C3_witness :
    specBearishBucket .bullish 1 .neutral 0 .bullish <
      specBullishBucket .bullish 1 .neutral 0 .bullish ∧
    (aggregate_signals .bullish 1 .neutral 0 .bullish).final_bias = .bullish ∧
    (aggregate_signals .bullish 1 .neutral 0 .bullish).bias_confidence =
      pyRound 2 (min (specBullishBucket .bullish 1 .neutral 0 .bullish) 1) :=
  ⟨by simp [specBullishBucket, specBearishBucket, normalizeConfidence]
      norm_num,
   (claim_C3 .bullish 1 .neutral 0 .bullish).1
     (by simp [specBullishBucket, specBearishBucket, normalizeConfidence]
         norm_num)⟩

theorem aggregate_agree_confidence (d : Direction) (x y : ℚ) (hd : d ≠ .neutral)
    (hx0 : 0 ≤ x) (hx1 : x ≤ 1) (hy0 : 0 ≤ y) (hy1 : y ≤ 1) :
    (aggregate_signals d x d y d).bias_confidence =
      pyRound 2 (min (x * (5/10) + y * (2/10) + 3/10) 1) := by
  have hx' : ¬ (1 : ℚ) < x := not_lt.mpr hx1
  have hy' : ¬ (1 : ℚ) < y := not_lt.mpr hy1
  have hpos : (0 : ℚ) < x * (5/10) + y * (2/10) + 3/10 := by linarith
  cases d with
  | neutral => exact absurd rfl hd
  | bullish =>
    have hbull : aggScoreBullish .bullish x .bullish y .bullish =
        x * (5/10) + y * (2/10) + 3/10 := by
      simp [aggScoreBullish, dirScore, normalizeConfidence, hx', hy']
    have hbear : aggScoreBearish .bullish x .bullish y .bullish = 0 := by
      simp [aggScoreBearish, dirScore]
    unfold aggregate_signals
    rw [hbull, hbear, if_pos hpos]
  | bearish =>
    have hbull : aggScoreBullish .bearish x .bearish y .bearish = 0 := by
      simp [aggScoreBullish, dirScore]
    have hbear : aggScoreBearish .bearish x .bearish y .bearish =
        x * (5/10) + y * (2/10) + 3/10 := by
      simp [aggScoreBearish, dirScore, normalizeConfidence, hx', hy']
    unfold aggregate_signals
    rw [hbull, hbear, if_neg (not_lt.mpr (le_of_lt hpos)), if_pos hpos]

theorem aggregate_all_neutral (t s : ℚ) :
    (aggregate_signals .neutral t .neutral s .neutral).final_bias = .neutral := by
  have hbull : aggScoreBullish .neutral t .neutral s .neutral = 0 := by
    simp [aggScoreBullish, dirScore]
  have hbear : aggScoreBearish .neutral t .neutral s .neutral = 0 := by
    simp [aggScoreBearish, dirScore]
  unfold aggregate_signals
  rw [hbull, hbear]
  simp

/-- Claim C4: when the three components agree on a non-neutral direction,
`bias_confidence` is monotone (non-decreasing) in the trend confidence and in
the sentiment confidence, the others held fixed — structure confidence is the
constant 1 under agreement — and when all three are neutral the final bias is
neutral. Confidences range over the data model's [0,1]. -/
theorem claim_C4 (d : Direction) (tc tc' sc sc' : ℚ) (hd : d ≠ .neutral)
    (htc0 : 0 ≤ tc) (htc : tc ≤ tc') (htc1 : tc' ≤ 1)
    (hsc0 : 0 ≤ sc) (hsc : sc ≤ sc') (hsc1 : sc' ≤ 1) :
    ((aggregate_signals d tc d sc d).bias_confidence ≤
        (aggregate_signals d tc' d sc d).bias_confidence ∧
      (aggregate_signals d tc d sc d).bias_confidence ≤
        (aggregate_signals d tc d sc' d).bias_confidence) ∧
    ∀ t s : ℚ,
      (aggregate_signals .neutral t .neutral s .neutral).final_bias =
        .neutral := by
  have hsc1' : sc ≤ 1 := le_trans hsc hsc1
  have htc1' : tc ≤ 1 := le_trans htc htc1
  have htc0' : 0 ≤ tc' := le_trans htc0 htc
  have hsc0' : 0 ≤ sc' := le_trans hsc0 hsc
  refine ⟨⟨?_, ?_⟩, fun t s => aggregate_all_neutral t s⟩
  · rw [aggregate_agree_confidence d tc sc hd htc0 htc1' hsc0 hsc1',
      aggregate_agree_confidence d tc' sc hd htc0' htc1 hsc0 hsc1']
    exact pyRound_mono 2 (min_le_min (by linarith) le_rfl)
  · rw [aggregate_agree_confidence d tc sc hd htc0 htc1' hsc0 hsc1',
      aggregate_agree_confidence d tc sc' hd htc0 htc1' hsc0' hsc1]
    exact pyRound_mono 2 (min_le_min (by linarith) le_rfl)

theorem claim_C4_witness :
    (Direction.bullish ≠ Direction.neutral) ∧ ((0:ℚ) ≤ 1/2) ∧ ((1/2:ℚ) ≤ 3/4) ∧
      ((3/4:ℚ) ≤ 1) ∧ ((0:ℚ) ≤ 1/4) ∧ ((1/4:ℚ) ≤ 1/2) ∧ ((1/2:ℚ) ≤ 1) ∧
    (((aggregate_signals .bullish (1/2) .bullish (1/4) .bullish).bias_confidence ≤
        (aggregate_signals .bullish (3/4) .bullish (1/4) .bullish).bias_confidence ∧
      (aggregate_signals .bullish (1/2) .bullish (1/4) .bullish).bias_confidence ≤
        (aggregate_signals .bullish (1/2) .bullish (1/2) .bullish).bias_confidence) ∧
    ∀ t s : ℚ,
      (aggregate_signals .neutral t .neutral s .neutral).final_bias = .neutral) :=
  ⟨by decide, by norm_num, by norm_num, by norm_num, by norm_num, by norm_num,
   by norm_num,
   claim_C4 .bullish (1/2) (3/4) (1/4) (1/2) (by decide) (by norm_num)
     (by norm_num) (by norm_num) (by norm_num) (by norm_num) (by norm_num)⟩

theorem priceMultiplier_pos (m c : ℚ) : 0 < priceMultiplier m c := by
  unfold priceMultiplier
  split_ifs with h
  · linarith
  · norm_num

/-- Claim C5 (counterexample): with neutral bias and entry price 1.00001 the
returned tp_level is the 4-decimal rounding 1.0, not the entry price
exactly. -/
theorem claim_C5_counterexample :
    (generate_tp_prediction "neutral" (1/2) 1 .noneVal 100 100
        (some (100001/100000)) 2).tp_level ≠ (100001/100000 : ℚ) := by
  have h1 : (generate_tp_prediction "neutral" (1/2) 1 .noneVal 100 100
      (some (100001/100000)) 2).tp_level = pyRound 4 (100001/100000) := by
    simp [generate_tp_prediction, tpCore,
      show pyLower "neutral" = "neutral" from rfl]
  rw [h1]
  norm_num [pyRound, roundHalfEven]

/-- Claim C5 (amended): for neutral bias the Target Engine returns
tp_level = sl_level = the entry price rounded to 4 decimals (hence exactly
the entry price whenever it carries at most 4 decimal places). -/
theorem claim_C5 (bias0 : String) (c m : ℚ) (ob : OBInput) (lz kl : ℚ)
    (ep : Option ℚ) (rr : ℚ) (h : pyLower bias0 = "neutral") :
    (generate_tp_prediction bias0 c m ob lz kl ep rr).tp_level =
      pyRound 4 (ep.getD kl) ∧
    (generate_tp_prediction bias0 c m ob lz kl ep rr).sl_level =
      pyRound 4 (ep.getD kl) := by
  simp [generate_tp_prediction, tpCore, h]

theorem claim_C5_witness :
    (pyLower "neutral" = "neutral") ∧
    ((generate_tp_prediction "neutral" (1/2) 1 .noneVal 100 100 (some 100)
        2).tp_level = pyRound 4 ((some (100 : ℚ)).getD 100) ∧
     (generate_tp_prediction "neutral" (1/2) 1 .noneVal 100 100 (some 100)
        2).sl_level = pyRound 4 ((some (100 : ℚ)).getD 100)) :=
  ⟨rfl, claim_C5 "neutral" (1/2) 1 .noneVal 100 100 (some 100) 2 rfl⟩

/-- Claim C6 (counterexample): a bullish input with momentum and confidence 1
whose order block, liquidity zone and entry price coincide at 100 yields
tp_distance 0, tp_level equal to the entry price, and levels [100, 100] whose
head does not lie strictly between entry and tp_level. -/
theorem claim_C6_counterexample :
    tpDistance (bullishBaseTp 100 100 100) 100
        (priceMultiplier 1 (normalizeConfidence 1)) = 0 ∧
    (generate_tp_prediction "bullish" 1 1 (.price 100) 100 100 (some 100)
        2).tp_level = 100 ∧
    (generate_tp_prediction "bullish" 1 1 (.price 100) 100 100 (some 100)
        2).levels = [100, 100] := by
  have hbase : bullishBaseTp (100 : ℚ) 100 100 = 100 := by
    norm_num [bullishBaseTp]
  have hdist : tpDistance (100 : ℚ) 100
      (priceMultiplier 1 (normalizeConfidence 1)) = 0 := by
    simp [tpDistance]
  have hob : resolveObBullish (.price 100) (100 : ℚ) = .ok 100 := by
    norm_num [resolveObBullish]
  refine ⟨by rw [hbase]; exact hdist, ?_, ?_⟩ <;>
    simp [generate_tp_prediction, tpCore, hob, hbase, hdist,
      show pyLower "bullish" = "bullish" from rfl,
      show ((2 : ℚ) = 0) = False by norm_num] <;>
    norm_num [pyRound, roundHalfEven]

/-- Claim C6 (amended): for a bullish input with positive momentum times
normalized confidence whose structural base `max(order_block, liquidity_zone,
entry)` lies strictly above the entry price, the tp_distance is strictly
positive, the unrounded tp_level strictly exceeds the entry price, the
unrounded intermediate level lies strictly between them, and the returned
tp_level and levels are the 4-decimal roundings of those quantities. -/
theorem claim_C6 (bias0 : String) (c m : ℚ) (ob : OBInput) (lz kl : ℚ)
    (ep : Option ℚ) (rr : ℚ) (obp entry base dist tp mid : ℚ)
    (hb : pyLower bias0 = "bullish")
    (hmc : 0 < m * normalizeConfidence c)
    (hrr : rr ≠ 0)
    (hob : resolveObBullish ob (ep.getD kl) = .ok obp)
    (he : entry = ep.getD kl)
    (hba : base = bullishBaseTp obp lz entry)
    (hdi : dist = tpDistance base entry (priceMultiplier m (normalizeConfidence c)))
    (htp : tp = base + dist)
    (hmid : mid = entry + (tp - entry) * (1/2))
    (hbase : entry < base) :
    0 < dist ∧ entry < tp ∧ entry < mid ∧ mid < tp ∧
    (generate_tp_prediction bias0 c m ob lz kl ep rr).tp_level = pyRound 4 tp ∧
    (generate_tp_prediction bias0 c m ob lz kl ep rr).levels =
      [pyRound 4 mid, pyRound 4 tp] := by
  subst hmid
  subst htp
  subst hdi
  subst hba
  subst he
  have hpm : 0 < priceMultiplier m (normalizeConfidence c) :=
    priceMultiplier_pos m (normalizeConfidence c)
  have hdist : 0 < tpDistance (bullishBaseTp obp lz (ep.getD kl)) (ep.getD kl)
      (priceMultiplier m (normalizeConfidence c)) := by
    unfold tpDistance
    rw [abs_of_pos (by linarith)]
    exact mul_pos (by linarith) hpm
  refine ⟨hdist, by linarith, by linarith, by linarith, ?_, ?_⟩ <;>
    simp [generate_tp_prediction, tpCore, hb, hob, hrr]

theorem claim_C6_witness :
    (pyLower "bullish" = "bullish") ∧
      (0 : ℚ) < 1 * normalizeConfidence 1 ∧ (2 : ℚ) ≠ 0 ∧
      resolveObBullish (.price 110) ((some (100 : ℚ)).getD 100) = .ok 110 ∧
      ((100 : ℚ)) < bullishBaseTp 110 100 100 ∧
      ((0 : ℚ) < tpDistance (bullishBaseTp 110 100 100) 100
          (priceMultiplier 1 (normalizeConfidence 1)) ∧
       (100 : ℚ) < bullishBaseTp 110 100 100 +
          tpDistance (bullishBaseTp 110 100 100) 100
            (priceMultiplier 1 (normalizeConfidence 1)) ∧
       (100 : ℚ) < 100 + (bullishBaseTp 110 100 100 +
          tpDistance (bullishBaseTp 110 100 100) 100
            (priceMultiplier 1 (normalizeConfidence 1)) - 100) * (1/2) ∧
       100 + (bullishBaseTp 110 100 100 +
          tpDistance (bullishBaseTp 110 100 100) 100
            (priceMultiplier 1 (normalizeConfidence 1)) - 100) * (1/2) <
         bullishBaseTp 110 100 100 +
          tpDistance (bullishBaseTp 110 100 100) 100
            (priceMultiplier 1 (normalizeConfidence 1)) ∧
       (generate_tp_prediction "bullish" 1 1 (.price 110) 100 100 (some 100)
          2).tp_level = pyRound 4 (bullishBaseTp 110 100 100 +
            tpDistance (bullishBaseTp 110 100 100) 100
              (priceMultiplier 1 (normalizeConfidence 1))) ∧
       (generate_tp_prediction "bullish" 1 1 (.price 110) 100 100 (some 100)
          2).levels =
         [pyRound 4 (100 + (bullishBaseTp 110 100 100 +
             tpDistance (bullishBaseTp 110 100 100) 100
               (priceMultiplier 1 (normalizeConfidence 1)) - 100) * (1/2)),
          pyRound 4 (bullishBaseTp 110 100 100 +
            tpDistance (bullishBaseTp 110 100 100) 100
              (priceMultiplier 1 (normalizeConfidence 1)))]) :=
  ⟨rfl, by norm_num [normalizeConfidence], by norm_num,
   by norm_num [resolveObBullish], by norm_num [bullishBaseTp, lt_max_iff],
   claim_C6 "bullish" 1 1 (.price 110) 100 100 (some 100) 2 110 100
     (bullishBaseTp 110 100 100)
     (tpDistance (bullishBaseTp 110 100 100) 100
       (priceMultiplier 1 (normalizeConfidence 1)))
     (bullishBaseTp 110 100 100 +
       tpDistance (bullishBaseTp 110 100 100) 100
         (priceMultiplier 1 (normalizeConfidence 1)))
     (100 + (bullishBaseTp 110 100 100 +
       tpDistance (bullishBaseTp 110 100 100) 100
         (priceMultiplier 1 (normalizeConfidence 1)) - 100) * (1/2))
     rfl (by norm_num [normalizeConfidence]) (by norm_num)
     (by norm_num [resolveObBullish]) rfl rfl rfl rfl rfl
     (by norm_num [bullishBaseTp, lt_max_iff])⟩


theorem timeEngineFallback (df : List Candle) (z : Option String)
    (h10 : 10 ≤ df.length) (havg : avgCandleSize df ≠ 0) :
    (estimate_time_and_volatility (some df) z).estimated_entry_time =
        "Error" ∧
    (estimate_time_and_volatility (some df) z).tp_eta = "Error" ∧
    (estimate_time_and_volatility (some df) z).volatility = "unknown" := by
  have hatr : atrStep = .error "NameError: name pd is not defined" := rfl
  have hlen : ¬ df.length < 10 := by omega
  cases h1 : entryTimeString df z (avgCandleSize df) with
  | error e => simp [estimate_time_and_volatility, hlen, havg, h1]
  | ok s =>
    cases h2 : tpEtaString df z (avgCandleSize df) with
    | error e => simp [estimate_time_and_volatility, hlen, havg, h1, h2]
    | ok t => simp [estimate_time_and_volatility, hlen, havg, h1, h2, hatr]

/-- Claim C10: time_engine.py binds only numpy at module level, so the name
pd consulted by the annotation of `estimate_time_and_volatility` is undefined
and importing the module raises NameError; and — were the function defined —
every call on at least ten candles with nonzero average candle size ends in
the caught-exception fallback with estimated_entry_time and tp_eta "Error"
and volatility "unknown", never an ATR tier from low/moderate/high. -/
theorem claim_C10 :
    timeEngineModuleImport = .error "NameError: name pd is not defined" ∧
    ∀ (df : List Candle) (z : Option String), 10 ≤ df.length →
      avgCandleSize df ≠ 0 →
      (estimate_time_and_volatility (some df) z).estimated_entry_time =
          "Error" ∧
      (estimate_time_and_volatility (some df) z).tp_eta = "Error" ∧
      (estimate_time_and_volatility (some df) z).volatility = "unknown" :=
  ⟨rfl, fun df z h10 havg => timeEngineFallback df z h10 havg⟩

theorem claim_C10_witness :
    (10 ≤ c10Series.length) ∧ avgCandleSize c10Series ≠ 0 ∧
    ((estimate_time_and_volatility (some c10Series) none).estimated_entry_time
        = "Error" ∧
     (estimate_time_and_volatility (some c10Series) none).tp_eta = "Error" ∧
     (estimate_time_and_volatility (some c10Series) none).volatility =
        "unknown") :=
  ⟨by decide,
   by norm_num [avgCandleSize, c10Series],
   claim_C10.2 c10Series none (by decide)
     (by norm_num [avgCandleSize, c10Series])⟩

/-- Claim C8 (code_bug evidence): on the spec scenario — ten candles of
average size 2 closing at 90, entry zone "100 -- 110" — the function returns
the caught-exception fallback (estimated_entry_time "Error"), not a formatted
ETA, because the ATR step references the unbound name pd; and the entry-time
computation the code attempts before that step yields "in ~1.9 hours" (the
midpoint 105 lies 15, not 10, away from the close 90: 7.5 candles, 112.5
minutes), so even the claim's own scenario arithmetic disagrees with the
midpoint formula it states. -/
theorem claim_C8 :
    (estimate_time_and_volatility (some c8Series)
        (some "100 -- 110")).estimated_entry_time = "Error" ∧
    (estimate_time_and_volatility (some c8Series)
        (some "100 -- 110")).volatility = "unknown" ∧
    entryTimeString c8Series (some "100 -- 110") (avgCandleSize c8Series) =
      .ok "in ~1.9 hours" := by
  have havg : avgCandleSize c8Series = 2 := by
    norm_num [avgCandleSize, c8Series]
  have hfall := timeEngineFallback c8Series (some "100 -- 110")
    (by decide) (by rw [havg]; norm_num)
  refine ⟨hfall.1, hfall.2.2, ?_⟩
  have hparse : parseZonePrices "100 -- 110" = .ok [100, 110] := rfl
  have hlast : lastClose c8Series = 90 := rfl
  have hmean : npMean [(100 : ℚ), 110] = 105 := by
    norm_num [npMean]
  rw [havg]
  simp only [entryTimeString, hparse, hlast, hmean]
  rw [if_neg (by decide), if_neg (by norm_num)]
  have hfmt : formatFix1 (|(90 : ℚ) - 105| / 2 * 15 / 60) = "1.9" := by
    have harg : |(90 : ℚ) - 105| / 2 * 15 / 60 = 15/8 := by norm_num
    rw [harg]
    simp only [formatFix1]
    rw [show roundHalfEven ((15 : ℚ)/8 * 10) = 19 by
      unfold roundHalfEven; norm_num]
    decide
  rw [hfmt]
  rfl

theorem getD_eq_getElem' (l : List ℚ) (k : ℕ) (h : k < l.length) :
    l.getD k 0 = l[k] := by
  simp [List.getD_eq_getElem?_getD, List.getElem?_eq_getElem h]

theorem listMax_mem : ∀ (l : List ℚ), l ≠ [] → listMax l ∈ l
  | [x], _ => by simp [listMax]
  | x :: y :: t, _ => by
    have ih := listMax_mem (y :: t) (by simp)
    show max x (listMax (y :: t)) ∈ x :: y :: t
    rcases max_cases x (listMax (y :: t)) with ⟨heq, _⟩ | ⟨heq, _⟩ <;> rw [heq]
    · exact List.mem_cons_self _ _
    · exact List.mem_cons_of_mem _ ih

theorem le_listMax : ∀ (l : List ℚ), ∀ x ∈ l, x ≤ listMax l
  | [x], z, hz => by
    simp at hz
    simp [listMax, hz]
  | x :: y :: t, z, hz => by
    show z ≤ max x (listMax (y :: t))
    rcases List.mem_cons.mp hz with rfl | hz'
    · exact le_max_left _ _
    · exact le_trans (le_listMax (y :: t) z hz') (le_max_right _ _)

theorem listMax_eq_of (l : List ℚ) (a : ℚ) (ha : a ∈ l)
    (hb : ∀ x ∈ l, x ≤ a) : listMax l = a :=
  le_antisymm (hb _ (listMax_mem l (List.ne_nil_of_mem ha)))
    (le_listMax l a ha)

theorem listMin_mem : ∀ (l : List ℚ), l ≠ [] → listMin l ∈ l
  | [x], _ => by simp [listMin]
  | x :: y :: t, _ => by
    have ih := listMin_mem (y :: t) (by simp)
    show min x (listMin (y :: t)) ∈ x :: y :: t
    rcases min_cases x (listMin (y :: t)) with ⟨heq, _⟩ | ⟨heq, _⟩ <;> rw [heq]
    · exact List.mem_cons_self _ _
    · exact List.mem_cons_of_mem _ ih

theorem listMin_le : ∀ (l : List ℚ), ∀ x ∈ l, listMin l ≤ x
  | [x], z, hz => by
    simp at hz
    simp [listMin, hz]
  | x :: y :: t, z, hz => by
    show min x (listMin (y :: t)) ≤ z
    rcases List.mem_cons.mp hz with rfl | hz'
    · exact min_le_left _ _
    · exact le_trans (min_le_right _ _) (listMin_le (y :: t) z hz')

theorem listMin_eq_of (l : List ℚ) (a : ℚ) (ha : a ∈ l)
    (hb : ∀ x ∈ l, a ≤ x) : listMin l = a :=
  le_antisymm (listMin_le l a ha)
    (hb _ (listMin_mem l (List.ne_nil_of_mem ha)))

theorem listMax_reverse (l : List ℚ) : listMax l.reverse = listMax l := by
  rcases eq_or_ne l [] with rfl | h
  · rfl
  · exact listMax_eq_of _ _ (List.mem_reverse.mpr (listMax_mem l h))
      (fun x hx => le_listMax l x (List.mem_reverse.mp hx))

theorem listMin_reverse (l : List ℚ) : listMin l.reverse = listMin l := by
  rcases eq_or_ne l [] with rfl | h
  · rfl
  · exact listMin_eq_of _ _ (List.mem_reverse.mpr (listMin_mem l h))
      (fun x hx => listMin_le l x (List.mem_reverse.mp hx))

theorem listMin_map_neg (l : List ℚ) (h : l ≠ []) :
    listMin (l.map (fun x => -x)) = -(listMax l) := by
  apply listMin_eq_of
  · exact List.mem_map_of_mem _ (listMax_mem l h)
  · intro x hx
    rcases List.mem_map.mp hx with ⟨y, hy, rfl⟩
    exact neg_le_neg (le_listMax l y hy)

theorem listMax_map_neg (l : List ℚ) (h : l ≠ []) :
    listMax (l.map (fun x => -x)) = -(listMin l) := by
  apply listMax_eq_of
  · exact List.mem_map_of_mem _ (listMin_mem l h)
  · intro x hx
    rcases List.mem_map.mp hx with ⟨y, hy, rfl⟩
    exact neg_le_neg (listMin_le l y hy)

theorem argmaxFirst_lt_length (l : List ℚ) (h : l ≠ []) :
    argmaxFirst l < l.length :=
  List.findIdx_lt_length_of_exists ⟨listMax l, listMax_mem l h, by simp⟩

theorem argminFirst_lt_length (l : List ℚ) (h : l ≠ []) :
    argminFirst l < l.length :=
  List.findIdx_lt_length_of_exists ⟨listMin l, listMin_mem l h, by simp⟩

theorem argmaxFirst_getD (l : List ℚ) (h : l ≠ []) :
    l.getD (argmaxFirst l) 0 = listMax l := by
  have hal : argmaxFirst l < l.length := argmaxFirst_lt_length l h
  have hsome : l[argmaxFirst l]? = some (l.getD (argmaxFirst l) 0) := by
    rw [getD_eq_getElem' _ _ hal]
    exact List.getElem?_eq_getElem hal
  exact beq_iff_eq.mp
    (@List.findIdx_of_getElem?_eq_some ℚ (fun x => x == listMax l)
      (l.getD (argmaxFirst l) 0) l hsome)

theorem argminFirst_getD (l : List ℚ) (h : l ≠ []) :
    l.getD (argminFirst l) 0 = listMin l := by
  have hal : argminFirst l < l.length := argminFirst_lt_length l h
  have hsome : l[argminFirst l]? = some (l.getD (argminFirst l) 0) := by
    rw [getD_eq_getElem' _ _ hal]
    exact List.getElem?_eq_getElem hal
  exact beq_iff_eq.mp
    (@List.findIdx_of_getElem?_eq_some ℚ (fun x => x == listMin l)
      (l.getD (argminFirst l) 0) l hsome)

theorem argminFirst_reverse_map_neg (l : List ℚ) (h : l ≠ [])
    (hu : uniqueMaxAt l) :
    argminFirst (l.reverse.map (fun x => -x)) =
      l.length - 1 - argmaxFirst l := by
  have hal : argmaxFirst l < l.length := argmaxFirst_lt_length l h
  have hrev : l.reverse ≠ [] := by simpa using h
  have hmin : listMin (l.reverse.map (fun x => -x)) = -(listMax l) := by
    rw [listMin_map_neg _ hrev, listMax_reverse]
  have hidx : l.length - 1 - argmaxFirst l <
      (l.reverse.map (fun x : ℚ => -x)).length := by
    simp only [List.length_map, List.length_reverse]
    omega
  apply (List.findIdx_eq hidx).mpr
  refine ⟨?_, ?_⟩
  · rw [← getD_eq_getElem' _ _ hidx]
    have hLa : (l.reverse.map (fun x : ℚ => -x)).getD
        (l.length - 1 - argmaxFirst l) 0 = -(listMax l) := by
      rw [getD_eq_getElem' _ _ hidx, List.getElem_map, List.getElem_reverse]
      have hik : l.length - 1 - (l.length - 1 - argmaxFirst l) =
          argmaxFirst l := by omega
      simp only [hik]
      rw [← getD_eq_getElem' _ _ hal, argmaxFirst_getD l h]
    rw [hLa, hmin]
    simp
  · intro j hj
    have hjL : j < (l.reverse.map (fun x : ℚ => -x)).length := by
      simp only [List.length_map, List.length_reverse]
      omega
    have hjl : l.length - 1 - j < l.length := by omega
    rw [← getD_eq_getElem' _ _ hjL]
    have hLj : (l.reverse.map (fun x : ℚ => -x)).getD j 0 =
        -(l.getD (l.length - 1 - j) 0) := by
      rw [getD_eq_getElem' _ _ hjL, List.getElem_map, List.getElem_reverse,
        ← getD_eq_getElem' _ _ hjl]
    rw [hLj, hmin]
    apply beq_eq_false_iff_ne.mpr
    intro hcon
    have hval : l.getD (l.length - 1 - j) 0 = listMax l := neg_inj.mp hcon
    have := hu (l.length - 1 - j) hjl (argmaxFirst l) hal hval
      (argmaxFirst_getD l h)
    omega

theorem argmaxFirst_reverse_map_neg (l : List ℚ) (h : l ≠ [])
    (hu : uniqueMinAt l) :
    argmaxFirst (l.reverse.map (fun x => -x)) =
      l.length - 1 - argminFirst l := by
  have hal : argminFirst l < l.length := argminFirst_lt_length l h
  have hrev : l.reverse ≠ [] := by simpa using h
  have hmax : listMax (l.reverse.map (fun x => -x)) = -(listMin l) := by
    rw [listMax_map_neg _ hrev, listMin_reverse]
  have hidx : l.length - 1 - argminFirst l <
      (l.reverse.map (fun x : ℚ => -x)).length := by
    simp only [List.length_map, List.length_reverse]
    omega
  apply (List.findIdx_eq hidx).mpr
  refine ⟨?_, ?_⟩
  · rw [← getD_eq_getElem' _ _ hidx]
    have hLa : (l.reverse.map (fun x : ℚ => -x)).getD
        (l.length - 1 - argminFirst l) 0 = -(listMin l) := by
      rw [getD_eq_getElem' _ _ hidx, List.getElem_map, List.getElem_reverse]
      have hik : l.length - 1 - (l.length - 1 - argminFirst l) =
          argminFirst l := by omega
      simp only [hik]
      rw [← getD_eq_getElem' _ _ hal, argminFirst_getD l h]
    rw [hLa, hmax]
    simp
  · intro j hj
    have hjL : j < (l.reverse.map (fun x : ℚ => -x)).length := by
      simp only [List.length_map, List.length_reverse]
      omega
    have hjl : l.length - 1 - j < l.length := by omega
    rw [← getD_eq_getElem' _ _ hjL]
    have hLj : (l.reverse.map (fun x : ℚ => -x)).getD j 0 =
        -(l.getD (l.length - 1 - j) 0) := by
      rw [getD_eq_getElem' _ _ hjL, List.getElem_map, List.getElem_reverse,
        ← getD_eq_getElem' _ _ hjl]
    rw [hLj, hmax]
    apply beq_eq_false_iff_ne.mpr
    intro hcon
    have hval : l.getD (l.length - 1 - j) 0 = listMin l := neg_inj.mp hcon
    have := hu (l.length - 1 - j) hjl (argminFirst l) hal hval
      (argminFirst_getD l h)
    omega

theorem windowAt_length (xs : List ℚ) (i m : ℕ) :
    (windowAt xs i m).length = 2 * m + 1 := by
  simp [windowAt]

theorem windowAt_ne_nil (xs : List ℚ) (i m : ℕ) : windowAt xs i m ≠ [] := by
  apply List.ne_nil_of_length_pos
  rw [windowAt_length]
  omega

theorem windowAt_getD (xs : List ℚ) (i m d : ℕ) (hd : d < 2 * m + 1) :
    (windowAt xs i m).getD d 0 = xs.getD (i - m + d) 0 := by
  simp [windowAt, List.getD_eq_getElem?_getD, List.getElem?_map,
    List.getElem?_range, hd]

theorem windowAt_reverse_neg (xs : List ℚ) (i m : ℕ) (h1 : m ≤ i)
    (h2 : i + m < xs.length) :
    windowAt (xs.reverse.map (fun x => -x)) (xs.length - 1 - i) m =
      (windowAt xs i m).reverse.map (fun x => -x) := by
  apply List.ext_getElem
  · simp [windowAt]
  · intro d hd1 hd2
    have hd : d < 2 * m + 1 := by
      simpa [windowAt_length] using hd1
    rw [← getD_eq_getElem' _ _ hd1, ← getD_eq_getElem' _ _ hd2]
    rw [windowAt_getD _ _ _ _ hd]
    have hk1 : xs.length - 1 - i - m + d <
        (xs.reverse.map (fun x : ℚ => -x)).length := by
      simp only [List.length_map, List.length_reverse]
      omega
    rw [getD_eq_getElem' _ _ hk1, List.getElem_map, List.getElem_reverse]
    have hik : xs.length - 1 - (xs.length - 1 - i - m + d) = i + m - d := by
      omega
    simp only [hik]
    rw [← getD_eq_getElem' _ _ (show i + m - d < xs.length by omega)]
    have hd2' : d < ((windowAt xs i m).reverse.map (fun x : ℚ => -x)).length := by
      simp only [List.length_map, List.length_reverse, windowAt_length]
      omega
    rw [getD_eq_getElem' _ _ hd2', List.getElem_map, List.getElem_reverse]
    have hrl : (windowAt xs i m).length - 1 - d = 2 * m - d := by
      rw [windowAt_length]
      omega
    simp only [hrl]
    rw [← getD_eq_getElem' _ _
      (show 2 * m - d < (windowAt xs i m).length by
        rw [windowAt_length]; omega)]
    rw [windowAt_getD _ _ _ _ (by omega)]
    have hik2 : i - m + (2 * m - d) = i + m - d := by omega
    rw [hik2]

theorem mirrorSeries_length (s : List Candle) :
    (mirrorSeries s).length = s.length := by
  simp [mirrorSeries]

theorem lowsOf_mirror (s : List Candle) :
    lowsOf (mirrorSeries s) = (highsOf s).reverse.map (fun x => -x) := by
  simp only [lowsOf, mirrorSeries, highsOf, List.map_map, List.map_reverse]
  rfl

theorem highsOf_mirror (s : List Candle) :
    highsOf (mirrorSeries s) = (lowsOf s).reverse.map (fun x => -x) := by
  simp only [highsOf, mirrorSeries, lowsOf, List.map_map, List.map_reverse]
  rfl

theorem highsOf_length (s : List Candle) : (highsOf s).length = s.length := by
  simp [highsOf]

theorem lowsOf_length (s : List Candle) : (lowsOf s).length = s.length := by
  simp [lowsOf]

/-- Claim C9 (counterexample): on the five-candle series with tied highs
[0,2,2,0,0], index 1 is a swing high, yet the mirrored index 3 of the
mirrored series is not a swing low — numpy's argmax/argmin keep the first of
tied extrema, and reversal turns a first occurrence into a last one. -/
theorem claim_C9_counterexample :
    swing_high tiedHighSeries 10 1 = true ∧
    swing_low (mirrorSeries tiedHighSeries) 10
      (tiedHighSeries.length - 1 - 1) = false := by
  decide

/-- Claim C9 (amended): mirroring a series (time order reversed, high and low
channels exchanged by price negation) swaps the swing-high and swing-low
labels at mirrored indices at every position whose centered window attains
its extremum at a unique offset; ties in the window break the symmetry, as
the counterexample shows. -/
theorem claim_C9 (s : List Candle) (n i : ℕ)
    (hb1 : effectiveHalfWidth s.length n ≤ i)
    (hb2 : i + effectiveHalfWidth s.length n < s.length) :
    (uniqueMaxAt (windowAt (highsOf s) i (effectiveHalfWidth s.length n)) →
      swing_high s n i =
        swing_low (mirrorSeries s) n (s.length - 1 - i)) ∧
    (uniqueMinAt (windowAt (lowsOf s) i (effectiveHalfWidth s.length n)) →
      swing_low s n i =
        swing_high (mirrorSeries s) n (s.length - 1 - i)) := by
  set m := effectiveHalfWidth s.length n with hm
  have hm' : effectiveHalfWidth (mirrorSeries s).length n = m := by
    rw [mirrorSeries_length]
  have hsh : swing_high s n i =
      (argmaxFirst (windowAt (highsOf s) i m) == m) := by
    simp only [swing_high, ← hm]
    rw [if_pos ⟨hb1, hb2⟩]
  have hslm : swing_low (mirrorSeries s) n (s.length - 1 - i) =
      (argminFirst (windowAt (lowsOf (mirrorSeries s))
        (s.length - 1 - i) m) == m) := by
    simp only [swing_low, hm']
    rw [if_pos ⟨by omega, by rw [mirrorSeries_length]; omega⟩]
  have hsl : swing_low s n i =
      (argminFirst (windowAt (lowsOf s) i m) == m) := by
    simp only [swing_low, ← hm]
    rw [if_pos ⟨hb1, hb2⟩]
  have hshm : swing_high (mirrorSeries s) n (s.length - 1 - i) =
      (argmaxFirst (windowAt (highsOf (mirrorSeries s))
        (s.length - 1 - i) m) == m) := by
    simp only [swing_high, hm']
    rw [if_pos ⟨by omega, by rw [mirrorSeries_length]; omega⟩]
  constructor
  · intro hu
    have hwin : windowAt (lowsOf (mirrorSeries s)) (s.length - 1 - i) m =
        (windowAt (highsOf s) i m).reverse.map (fun x => -x) := by
      rw [lowsOf_mirror]
      have := windowAt_reverse_neg (highsOf s) i m hb1
        (by rw [highsOf_length]; exact hb2)
      rw [highsOf_length] at this
      exact this
    have harg := argminFirst_reverse_map_neg (windowAt (highsOf s) i m)
      (windowAt_ne_nil _ _ _) hu
    rw [hsh, hslm, hwin, harg, windowAt_length]
    have ha2m : argmaxFirst (windowAt (highsOf s) i m) ≤ 2 * m := by
      have := argmaxFirst_lt_length (windowAt (highsOf s) i m)
        (windowAt_ne_nil _ _ _)
      rw [windowAt_length] at this
      omega
    rcases eq_or_ne (argmaxFirst (windowAt (highsOf s) i m)) m with
      he | he
    · rw [he, show 2 * m + 1 - 1 - m = m by omega]
    · rw [beq_eq_false_iff_ne.mpr he,
        beq_eq_false_iff_ne.mpr (by omega :
          2 * m + 1 - 1 - argmaxFirst (windowAt (highsOf s) i m) ≠ m)]
  · intro hu
    have hwin : windowAt (highsOf (mirrorSeries s)) (s.length - 1 - i) m =
        (windowAt (lowsOf s) i m).reverse.map (fun x => -x) := by
      rw [highsOf_mirror]
      have := windowAt_reverse_neg (lowsOf s) i m hb1
        (by rw [lowsOf_length]; exact hb2)
      rw [lowsOf_length] at this
      exact this
    have harg := argmaxFirst_reverse_map_neg (windowAt (lowsOf s) i m)
      (windowAt_ne_nil _ _ _) hu
    rw [hsl, hshm, hwin, harg, windowAt_length]
    have ha2m : argminFirst (windowAt (lowsOf s) i m) ≤ 2 * m := by
      have := argminFirst_lt_length (windowAt (lowsOf s) i m)
        (windowAt_ne_nil _ _ _)
      rw [windowAt_length] at this
      omega
    rcases eq_or_ne (argminFirst (windowAt (lowsOf s) i m)) m with
      he | he
    · rw [he, show 2 * m + 1 - 1 - m = m by omega]
    · rw [beq_eq_false_iff_ne.mpr he,
        beq_eq_false_iff_ne.mpr (by omega :
          2 * m + 1 - 1 - argminFirst (windowAt (lowsOf s) i m) ≠ m)]

theorem claim_C9_witness :
    (effectiveHalfWidth strictPeakSeries.length 10 ≤ 2) ∧
    (2 + effectiveHalfWidth strictPeakSeries.length 10 <
      strictPeakSeries.length) ∧
    uniqueMaxAt (windowAt (highsOf strictPeakSeries) 2
      (effectiveHalfWidth strictPeakSeries.length 10)) ∧
    swing_high strictPeakSeries 10 2 =
      swing_low (mirrorSeries strictPeakSeries) 10
        (strictPeakSeries.length - 1 - 2) :=
  ⟨by decide, by decide, by decide,
   (claim_C9 strictPeakSeries 10 2 (by decide) (by decide)).1 (by decide)⟩

end JetBuddy
